import Mathlib

/-!
Verification of the face-stylization and compositing pipeline of the
`Panth09/illustration-assgn` repository (backend/illustration_styler.py,
backend/instant_id_styler.py, backend/main.py).

Images are modelled as a pair of dimensions together with a pixel map;
OpenCV library primitives (filters, k-means, seamless cloning) are kept
abstract as a record of operations `CV`, constrained only by the
dimension contracts that the OpenCV documentation guarantees
(`CV.DimsOk`).  The repository's own code — region extraction with
padding and clamping, the filter-chain sequencing, the compositing
control flow with its fallbacks, and the HTTP handlers' temp-file
lifecycle — is translated line by line into executable definitions.
-/

namespace IllustrationApp

/-- A pixel: three 8-bit colour channels (values are kept as naturals). -/
abbrev Color := Nat × Nat × Nat

/-- A bounding box or coordinate tuple (x1, y1, x2, y2), as in the Python code. -/
abbrev Box4 := Int × Int × Int × Int

/-- An image: a height × width grid of 3-channel pixels (numpy `ndarray`
of shape (h, w, 3)). -/
structure Img where
  h : Nat
  w : Nat
  px : Nat → Nat → Color

/-- A constant-colour image, used as concrete test input. -/
def constImg (h w : Nat) (c : Color) : Img :=
  { h := h, w := w, px := fun _ _ => c }

/-- Resolution of one numpy slice boundary: a negative index counts from
the end, and the result is clamped into [0, n]. -/
def npIdx (n : Nat) (i : Int) : Nat :=
  if i < 0 then ((n : Int) + i).toNat else min i.toNat n

/-- `img[y1:y2, x1:x2]` with full numpy slice semantics: never raises,
out-of-range or reversed slices yield an empty view. -/
def crop (img : Img) (y1 y2 x1 x2 : Int) : Img :=
  { h := npIdx img.h y2 - npIdx img.h y1
    w := npIdx img.w x2 - npIdx img.w x1
    px := fun y x => img.px (npIdx img.h y1 + y) (npIdx img.w x1 + x) }

/-- `img[y0:y0+sub.h, x0:x0+sub.w] = sub` — writing a sub-image into a
region (the shapes are checked by the callers, mirroring numpy's
broadcast check). -/
def setRegion (img : Img) (y0 x0 : Nat) (sub : Img) : Img :=
  { img with px := fun y x =>
      if y0 ≤ y ∧ y < y0 + sub.h ∧ x0 ≤ x ∧ x < x0 + sub.w then
        sub.px (y - y0) (x - x0)
      else img.px y x }

/-- Integer model of the float alpha blend
`(src * mask/255 + roi * (1 - mask/255)).astype(np.uint8)` used by both
fallback/feathered blends (the first mask channel weighs all three
colour channels, as the numpy broadcast does). -/
def alphaBlend (src roi mask : Img) : Img :=
  { h := roi.h
    w := roi.w
    px := fun y x =>
      let m := (mask.px y x).1
      (((src.px y x).1 * m + (roi.px y x).1 * (255 - m)) / 255,
       ((src.px y x).2.1 * m + (roi.px y x).2.1 * (255 - m)) / 255,
       ((src.px y x).2.2 * m + (roi.px y x).2.2 * (255 - m)) / 255) }

/-- Integer model of `cv2.convertScaleAbs(cv2.multiply(src, mask/255))`. -/
def maskMul (src mask : Img) : Img :=
  { h := src.h
    w := src.w
    px := fun y x =>
      let m := (mask.px y x).1
      ((src.px y x).1 * m / 255, (src.px y x).2.1 * m / 255,
       (src.px y x).2.2 * m / 255) }

/-- OpenCV colour-conversion codes used by the repository. -/
def COLOR_BGR2RGB : Nat := 4

def COLOR_RGB2GRAY : Nat := 7

def COLOR_GRAY2RGB : Nat := 8

def COLOR_BGR2LAB : Nat := 44

def COLOR_RGB2BGR : Nat := 4

/-- The OpenCV / numpy library primitives the pipeline calls into,
kept abstract (the spec treats the computer-vision library as an
external collaborator).  `kmeans n data K` returns the per-sample label
assignment and the `K` cluster centroids; `seamlessClone` returns
`none` when OpenCV raises (e.g. invalid mask geometry);
`colorTransfer` models the whole LAB mean/variance-matching block of
illustration_styler.py lines 159–169, `none` meaning its internal
`except` was triggered; `featherMask th tw` models the
ellipse-plus-Gaussian-blur mask of lines 172–174 and `gaussianMask` the
`np.exp` grid mask of instant_id_styler.py lines 167–174. -/
structure CV where
  resize : Img → Nat → Nat → Img
  cvtColor : Img → Nat → Img
  bilateralFilter : Img → Nat → Nat → Nat → Img
  canny : Img → Nat → Nat → Img
  gaussianBlur : Img → Nat → Img
  addWeighted : Img → ℚ → Img → ℚ → ℚ → Img
  morphologyEx : Img → Img
  kmeans : Nat → (Nat → Color) → (K : Nat) → ((Nat → Nat) × (Nat → Color))
  seamlessClone : Img → Img → Img → Int × Int → Option Img
  colorTransfer : Img → Img → Option Img
  featherMask : Nat → Nat → Img
  gaussianMask : Nat → Nat → Img

/-- The dimension contracts OpenCV documents for each primitive:
`resize` produces exactly the requested size, the filters preserve
their input's size, `addWeighted` has its first argument's size,
k-means labels are below `K`, and a successful `seamlessClone` has the
destination's size; a successful colour transfer keeps the source
region's size; the generated masks have the requested size. -/
structure CV.DimsOk (cv : CV) : Prop where
  resize_h : ∀ i w h, (cv.resize i w h).h = h
  resize_w : ∀ i w h, (cv.resize i w h).w = w
  cvt_h : ∀ i c, (cv.cvtColor i c).h = i.h
  cvt_w : ∀ i c, (cv.cvtColor i c).w = i.w
  bil_h : ∀ i a b c, (cv.bilateralFilter i a b c).h = i.h
  bil_w : ∀ i a b c, (cv.bilateralFilter i a b c).w = i.w
  canny_h : ∀ i a b, (cv.canny i a b).h = i.h
  canny_w : ∀ i a b, (cv.canny i a b).w = i.w
  gauss_h : ∀ i k, (cv.gaussianBlur i k).h = i.h
  gauss_w : ∀ i k, (cv.gaussianBlur i k).w = i.w
  addW_h : ∀ a wa b wb g, (cv.addWeighted a wa b wb g).h = a.h
  addW_w : ∀ a wa b wb g, (cv.addWeighted a wa b wb g).w = a.w
  morph_h : ∀ i, (cv.morphologyEx i).h = i.h
  morph_w : ∀ i, (cv.morphologyEx i).w = i.w
  kmeans_lt : ∀ n d K i, 0 < K → (cv.kmeans n d K).1 i < K
  clone_h : ∀ s d m c r, cv.seamlessClone s d m c = some r → r.h = d.h
  clone_w : ∀ s d m c r, cv.seamlessClone s d m c = some r → r.w = d.w
  transfer_h : ∀ s d r, cv.colorTransfer s d = some r → r.h = s.h
  transfer_w : ∀ s d r, cv.colorTransfer s d = some r → r.w = s.w
  feather_h : ∀ th tw, (cv.featherMask th tw).h = th
  feather_w : ∀ th tw, (cv.featherMask th tw).w = tw
  gmask_h : ∀ th tw, (cv.gaussianMask th tw).h = th
  gmask_w : ∀ th tw, (cv.gaussianMask th tw).w = tw

/-- A dimension-honest instantiation of the library primitives, used to
evaluate the pipeline on concrete inputs: filters act as the identity,
k-means puts everything in cluster 0, and seamless cloning always
fails. -/
def trivialCV : CV where
  resize := fun i w h => { h := h, w := w, px := i.px }
  cvtColor := fun i _ => i
  bilateralFilter := fun i _ _ _ => i
  canny := fun i _ _ => i
  gaussianBlur := fun i _ => i
  addWeighted := fun a _ _ _ _ => a
  morphologyEx := fun i => i
  kmeans := fun _ _ _ => (fun _ => 0, fun _ => (0, 0, 0))
  seamlessClone := fun _ _ _ _ => none
  colorTransfer := fun _ _ => none
  featherMask := fun th tw => constImg th tw (255, 255, 255)
  gaussianMask := fun th tw => constImg th tw (255, 255, 255)

theorem trivialCV_dimsOk : trivialCV.DimsOk where
  resize_h := fun _ _ _ => rfl
  resize_w := fun _ _ _ => rfl
  cvt_h := fun _ _ => rfl
  cvt_w := fun _ _ => rfl
  bil_h := fun _ _ _ _ => rfl
  bil_w := fun _ _ _ _ => rfl
  canny_h := fun _ _ _ => rfl
  canny_w := fun _ _ _ => rfl
  gauss_h := fun _ _ => rfl
  gauss_w := fun _ _ => rfl
  addW_h := fun _ _ _ _ _ => rfl
  addW_w := fun _ _ _ _ _ => rfl
  morph_h := fun _ => rfl
  morph_w := fun _ => rfl
  kmeans_lt := fun _ _ _ _ hK => hK
  clone_h := fun _ _ _ _ _ h => by cases h
  clone_w := fun _ _ _ _ _ h => by cases h
  transfer_h := fun _ _ _ h => by cases h
  transfer_w := fun _ _ _ h => by cases h
  feather_h := fun _ _ => rfl
  feather_w := fun _ _ => rfl
  gmask_h := fun _ _ => rfl
  gmask_w := fun _ _ => rfl

/-- `int(coord * scale)` with `scale = 1024 / m`: Python truncates the
float product toward zero; modelled as exact rational truncation
(`Int.tdiv`), which agrees with the float computation for coordinate
magnitudes arising from images. -/
def scaleCoord (m : Nat) (c : Int) : Int :=
  Int.tdiv (c * 1024) m

/-- The shared "resize if too large" step (illustration_styler.py
lines 50–56 and 142–147): when the largest dimension exceeds 1024 the
image is resized by `scale = 1024 / max(h, w)`, with `int(d * scale)`
modelled as floor division. -/
def downscaled (cv : CV) (img : Img) : Img :=
  let m := max img.h img.w
  if 1024 < m then cv.resize img (img.w * 1024 / m) (img.h * 1024 / m) else img

/-- The matching coordinate rescaling (`[int(coord * scale) for coord in
bbox]`, lines 58 and 149): applied exactly when `downscaled` resizes. -/
def scaledCoords (img : Img) (c : Box4) : Box4 :=
  let m := max img.h img.w
  if 1024 < m then
    (scaleCoord m c.1, scaleCoord m c.2.1, scaleCoord m c.2.2.1, scaleCoord m c.2.2.2)
  else c

/-- The cluster count of the k-means colour quantization: `K = 8` in
illustration_styler.py line 112 and the literal `8` in
instant_id_styler.py line 96. -/
def kClusters : Nat := 8

/-- The k-means colour-quantization block shared by both stylers
(illustration_styler.py lines 109–116, instant_id_styler.py lines
92–99): flatten the pixels, cluster them into `K` groups, and replace
each pixel by its cluster centroid. -/
def quantize (cv : CV) (img : Img) (K : Nat) : Img :=
  let data := fun i => img.px (i / img.w) (i % img.w)
  let km := cv.kmeans (img.h * img.w) data K
  { h := img.h, w := img.w, px := fun y x => km.2 (km.1 (y * img.w + x)) }

namespace IllustrationStyler

/-- illustration_styler.py lines 47–71, `IllustrationStyler.extract_face_region`:
`cv2.imread` returning `None` (modelled as `none`) makes `image.shape`
raise, which the surrounding `except` re-raises; otherwise the image is
optionally downscaled with the bbox rescaled, the box is padded by
`int((x2 - x1) * 0.1)` on every side, clamped to the image bounds, and
the numpy crop together with the final coordinates is returned.  The
numpy slice `image[y1:y2, x1:x2]` never raises: a degenerate box
produces an empty region. -/
def extract_face_region (cv : CV) (img? : Option Img) (face_bbox : Box4) :
    Except String (Img × Box4) :=
  match img? with
  | none => .error "Failed to extract face region"
  | some image0 =>
    let image := downscaled cv image0
    let b := scaledCoords image0 face_bbox
    let pad := Int.tdiv (b.2.2.1 - b.1) 10
    let x1 := max 0 (b.1 - pad)
    let y1 := max 0 (b.2.1 - pad)
    let x2 := min (image.w : Int) (b.2.2.1 + pad)
    let y2 := min (image.h : Int) (b.2.2.2 + pad)
    .ok (crop image y1 y2 x1 x2, (x1, y1, x2, y2))

/-- illustration_styler.py lines 77–128, `IllustrationStyler.stylize_face`:
downscale to a largest dimension of 512 if needed, convert colour
spaces, bilateral-filter, overlay blurred Canny edges at weight 0.08,
then k-means-quantize with `K = 8`.  The `face_lab` conversion of line
92 is computed but never used, as in the source. -/
def stylize_face (cv : CV) (face_image0 : Img) : Img :=
  let m := max face_image0.h face_image0.w
  let face_image :=
    if 512 < m then
      cv.resize face_image0 (face_image0.w * 512 / m) (face_image0.h * 512 / m)
    else face_image0
  let _face_lab := cv.cvtColor face_image COLOR_BGR2LAB
  let face_rgb := cv.cvtColor face_image COLOR_BGR2RGB
  let smooth := cv.bilateralFilter face_rgb 9 75 75
  let gray := cv.cvtColor smooth COLOR_RGB2GRAY
  let edges0 := cv.canny gray 60 120
  let edges1 := cv.gaussianBlur edges0 3
  let edges := cv.cvtColor edges1 COLOR_GRAY2RGB
  let stylized := cv.addWeighted smooth (92 / 100) edges (8 / 100) 0
  quantize cv stylized kClusters

/-- illustration_styler.py lines 130–197,
`IllustrationStyler.insert_face_into_illustration`: load the
illustration (`None` → ValueError), downscale it if oversized with the
coordinates rescaled, resize the stylized face to the target rectangle
(`cv2.resize` raises on an empty `dsize`, i.e. non-positive target
dimensions), colour-transfer from the destination region with an
internal fallback to the untransferred face, build the feathered
elliptical mask (`cv2.ellipse` raises on negative axes, i.e. a target
thinner than 4 pixels), try `cv2.seamlessClone`, and on its failure
fall back to the feathered alpha blend — whose numpy arithmetic itself
raises if the region-of-interest shape does not match the target
(coordinates outside the illustration). -/
def insert_face_into_illustration (cv : CV) (illus? : Option Img)
    (stylized_face : Img) (face_coords : Box4) : Except String Img :=
  match illus? with
  | none => .error "Failed to load illustration"
  | some illustration0 =>
    let illustration := downscaled cv illustration0
    let c := scaledCoords illustration0 face_coords
    let x1 := c.1
    let y1 := c.2.1
    let x2 := c.2.2.1
    let y2 := c.2.2.2
    let target_h := y2 - y1
    let target_w := x2 - x1
    if target_w ≤ 0 ∨ target_h ≤ 0 then .error "resize: empty dsize"
    else
      let th := target_h.toNat
      let tw := target_w.toNat
      let resized_face := cv.resize stylized_face tw th
      let roi0 := crop illustration y1 y2 x1 x2
      let color_matched := (cv.colorTransfer resized_face roi0).getD resized_face
      if Int.tdiv target_w 2 - 2 < 0 ∨ Int.tdiv target_h 2 - 2 < 0 then
        .error "ellipse: negative axes"
      else
        let mask := cv.featherMask th tw
        let center := (x1 + Int.tdiv target_w 2, y1 + Int.tdiv target_h 2)
        let color_matched_bgr := cv.cvtColor color_matched COLOR_RGB2BGR
        match cv.seamlessClone color_matched_bgr illustration mask center with
        | some result => .ok result
        | none =>
          let roi := crop illustration y1 y2 x1 x2
          if color_matched_bgr.h = roi.h ∧ color_matched_bgr.w = roi.w ∧
              mask.h = roi.h ∧ mask.w = roi.w then
            let blended := alphaBlend color_matched_bgr roi mask
            .ok (setRegion illustration (npIdx illustration.h y1)
                  (npIdx illustration.w x1) blended)
          else .error "operands could not be broadcast together"

end IllustrationStyler

/-- One detected face as produced by `FaceDetector.detect_face`
(face_detector.py lines 68–77); only the bounding box is consumed by
the pipeline. -/
structure FaceData where
  bbox : Box4

/-- The area key of `FaceDetector.get_largest_face` (face_detector.py
lines 102–106): `(x2 - x1) * (y2 - y1)`. -/
def faceArea (f : FaceData) : Int :=
  (f.bbox.2.2.1 - f.bbox.1) * (f.bbox.2.2.2 - f.bbox.2.1)

/-- face_detector.py lines 86–108, `FaceDetector.get_largest_face`:
`None` when no face was detected, otherwise Python's `max` with the
area key (keeping the first of equal-area faces). -/
def get_largest_face (faces : List FaceData) : Option FaceData :=
  match faces with
  | [] => none
  | f :: fs => some (fs.foldl (fun best g => if faceArea best < faceArea g then g else best) f)

namespace IllustrationStyler

/-- illustration_styler.py lines 203–245, `IllustrationStyler.process`:
detect the largest face (raising `ValueError("No face detected in the
provided image")` when there is none), extract the padded face region,
stylize it, and insert it into the illustration; every stage failure
propagates to the caller. -/
def process (cv : CV) (faces : List FaceData) (childImg? illusImg? : Option Img) :
    Except String Img :=
  match get_largest_face faces with
  | none => .error "No face detected in the provided image"
  | some face_data =>
    match extract_face_region cv childImg? face_data.bbox with
    | .error e => .error e
    | .ok rc => insert_face_into_illustration cv illusImg? (stylize_face cv rc.1) rc.2

end IllustrationStyler

namespace InstantIDStyler

/-- instant_id_styler.py lines 66–114,
`InstantIDStyler.apply_illustration_style`: Canny edges, bilateral
smoothing, morphological closing of the edges, k-means quantization
with 8 clusters, then the inverted edge overlay blended at weight
0.15 after an integer division by 3.  No resizing happens anywhere in
this chain. -/
def apply_illustration_style (cv : CV) (face_image : Img) : Img :=
  let face_rgb := cv.cvtColor face_image COLOR_BGR2RGB
  let gray := cv.cvtColor face_rgb COLOR_RGB2GRAY
  let edges0 := cv.canny gray 50 150
  let smooth := cv.bilateralFilter face_rgb 9 75 75
  let edges := cv.morphologyEx edges0
  let cartoon := quantize cv smooth kClusters
  let edges_3channel0 := cv.cvtColor edges COLOR_GRAY2RGB
  let edges_3channel : Img :=
    { h := edges_3channel0.h, w := edges_3channel0.w,
      px := fun y x =>
        (255 - (edges_3channel0.px y x).1, 255 - (edges_3channel0.px y x).2.1,
         255 - (edges_3channel0.px y x).2.2) }
  let edges_div3 : Img :=
    { h := edges_3channel.h, w := edges_3channel.w,
      px := fun y x =>
        ((edges_3channel.px y x).1 / 3, (edges_3channel.px y x).2.1 / 3,
         (edges_3channel.px y x).2.2 / 3) }
  cv.addWeighted cartoon (85 / 100) edges_div3 (15 / 100) 0

/-- The coordinate clamping of instant_id_styler.py lines 151–156:
`x1, y1 = max(0, x1), max(0, y1)` and `x2, y2 = min(w, x2), min(h, y2)`
against the template's dimensions. -/
def clampedBox (template : Img) (c : Box4) : Box4 :=
  (max 0 c.1, max 0 c.2.1, min (template.w : Int) c.2.2.1, min (template.h : Int) c.2.2.2)

/-- The `(target_h, target_w)` pair of instant_id_styler.py line 158,
computed from the clamped coordinates. -/
def clampedTarget (template : Img) (c : Box4) : Int × Int :=
  let b := clampedBox template c
  (b.2.2.2 - b.2.1, b.2.2.1 - b.1)

/-- instant_id_styler.py lines 136–195,
`InstantIDStyler.blend_with_illustration_template`: clamp the
coordinates to the template, return the template unchanged when the
target collapses (`target_h <= 0 or target_w <= 0`), otherwise resize
the face to the target, build the Gaussian mask, and alpha-blend into
a copy of the template (the `masked_face` of lines 177–180 is computed
but unused, as in the source). -/
def blend_with_illustration_template (cv : CV) (template_image stylized_face : Img)
    (face_coords : Box4) : Img :=
  let b := clampedBox template_image face_coords
  let t := clampedTarget template_image face_coords
  if t.1 ≤ 0 ∨ t.2 ≤ 0 then template_image
  else
    let th := t.1.toNat
    let tw := t.2.toNat
    let resized_face := cv.resize stylized_face tw th
    let mask := cv.gaussianMask th tw
    let _masked_face := maskMul resized_face mask
    let roi := crop template_image b.2.1 b.2.2.2 b.1 b.2.2.1
    let blended := alphaBlend resized_face roi mask
    setRegion template_image (npIdx template_image.h b.2.1) (npIdx template_image.w b.1) blended

end InstantIDStyler

namespace MainAPI

/-- The outcome of `illustration_styler.process` as awaited with
`asyncio.wait_for` in main.py lines 245–254: either the executor
finished (with the pipeline's result or exception) or the 120-second
timeout fired. -/
inductive PipelineOutcome where
  | completed (result : Except String Img)
  | timedOut

/-- Which of this request's temporary files exist on disk at a given
moment: the two uploaded inputs (`{id}_child.jpg`, `{id}_template.jpg`)
and the `{id}_personalized.png` output. -/
structure TempFiles where
  childFile : Bool
  illusFile : Bool
  outputFile : Bool
deriving DecidableEq

/-- A FastAPI handler's observable result: a success JSON body or an
`HTTPException` with status code and detail string. -/
inductive HandlerResponse where
  | success (message : String)
  | httpError (statusCode : Nat) (detail : String)
deriving DecidableEq

/-- The `try` body of main.py lines 200–286 (`personalize_illustration`):
size checks and compression before each input file is written, then the
pipeline outcome; the success path deletes both input files before
returning (lines 266–269).  The second component records which temp
files exist when the `finally` block is entered. -/
def personalizeCore (childTooLarge childCompressOk illusTooLarge illusCompressOk : Bool)
    (outcome : PipelineOutcome) : HandlerResponse × TempFiles :=
  if childTooLarge then
    (.httpError 413 "Child photo too large. Maximum 5MB.", ⟨false, false, false⟩)
  else if childCompressOk = false then
    (.httpError 500 "Personalization failed: compression error", ⟨false, false, false⟩)
  else if illusTooLarge then
    (.httpError 413 "Illustration too large. Maximum 5MB.", ⟨true, false, false⟩)
  else if illusCompressOk = false then
    (.httpError 500 "Personalization failed: compression error", ⟨true, false, false⟩)
  else
    match outcome with
    | .timedOut =>
      (.httpError 504 "Processing timeout - please try with smaller images", ⟨true, true, false⟩)
    | .completed (.error e) =>
      (.httpError 500 ("Personalization failed: " ++ e), ⟨true, true, false⟩)
    | .completed (.ok _) =>
      (.success "Illustration personalized successfully", ⟨false, false, true⟩)

/-- The `finally` block of main.py lines 287–295: unlink both input
files whatever the body did (each unlink is itself wrapped so it cannot
raise). -/
def requestCleanup (r : HandlerResponse × TempFiles) : HandlerResponse × TempFiles :=
  (r.1, { r.2 with childFile := false, illusFile := false })

/-- main.py lines 179–295, the `/personalize` handler: the two
model-readiness 503s fire before any file is written; otherwise the
body runs inside `try ... finally`. -/
def personalize_illustration (modelsReady servicesReady : Bool)
    (childTooLarge childCompressOk illusTooLarge illusCompressOk : Bool)
    (outcome : PipelineOutcome) : HandlerResponse × TempFiles :=
  if modelsReady = false then
    (.httpError 503 "Models still loading, please wait a moment and try again",
     ⟨false, false, false⟩)
  else if servicesReady = false then
    (.httpError 503 "Services not initialized", ⟨false, false, false⟩)
  else
    requestCleanup
      (personalizeCore childTooLarge childCompressOk illusTooLarge illusCompressOk outcome)

/-- main.py lines 115–176, the `/detect-face` handler: readiness 503s,
then size check, compression, the upload written to a temp file, the
detection (deleting the temp file immediately on success, lines
152–154), and a `finally` that unlinks the temp file on every path.
The Boolean component records whether the temp file still exists after
the request. -/
def detect_face (modelsReady detectorReady tooLarge compressOk : Bool)
    (detection : Except String Bool) : HandlerResponse × Bool :=
  if modelsReady = false then
    (.httpError 503 "Models still loading, please wait a moment and try again", false)
  else if detectorReady = false then
    (.httpError 503 "Face detector not initialized", false)
  else
    let core : HandlerResponse × Bool :=
      if tooLarge then (.httpError 413 "File too large. Maximum 5MB allowed.", false)
      else if compressOk = false then
        (.httpError 500 "Detection failed: compression error", false)
      else
        match detection with
        | .error e => (.httpError 500 ("Detection failed: " ++ e), true)
        | .ok _ => (.success "detection results returned", false)
    (core.1, false)

end MainAPI

/-! ### Observation helpers and general lemmas -/

/-- The dimensions of a successfully produced image. -/
def okDims : Except String Img → Option (Nat × Nat)
  | .ok i => some (i.h, i.w)
  | .error _ => none

/-- The coordinates returned by a successful region extraction. -/
def exCoords : Except String (Img × Box4) → Option Box4
  | .ok r => some r.2
  | .error _ => none

/-- The dimensions of the region returned by a successful extraction. -/
def exRegionDims : Except String (Img × Box4) → Option (Nat × Nat)
  | .ok r => some (r.1.h, r.1.w)
  | .error _ => none

/-- The set of distinct pixel colours of an image. -/
def palette (img : Img) : Finset Color :=
  (Finset.range img.h ×ˢ Finset.range img.w).image fun p => img.px p.1 p.2

theorem npIdx_of_nonneg_le (n : Nat) (i : Int) (h0 : 0 ≤ i) (hn : i ≤ (n : Int)) :
    npIdx n i = i.toNat := by
  unfold npIdx
  rw [if_neg (by omega)]
  omega

/-- Dimensions of an in-bounds crop. -/
theorem crop_dims (img : Img) (y1 y2 x1 x2 : Int)
    (hy1 : 0 ≤ y1) (hy2 : y1 ≤ y2) (hyh : y2 ≤ (img.h : Int))
    (hx1 : 0 ≤ x1) (hx2 : x1 ≤ x2) (hxw : x2 ≤ (img.w : Int)) :
    (crop img y1 y2 x1 x2).h = (y2 - y1).toNat ∧
    (crop img y1 y2 x1 x2).w = (x2 - x1).toNat := by
  unfold crop
  rw [npIdx_of_nonneg_le img.h y1 hy1 (by omega), npIdx_of_nonneg_le img.h y2 (by omega) hyh,
    npIdx_of_nonneg_le img.w x1 hx1 (by omega), npIdx_of_nonneg_le img.w x2 (by omega) hxw]
  constructor <;> simp <;> omega

theorem setRegion_dims (img : Img) (y0 x0 : Nat) (sub : Img) :
    (setRegion img y0 x0 sub).h = img.h ∧ (setRegion img y0 x0 sub).w = img.w :=
  ⟨rfl, rfl⟩

/-- For non-negative targets the Python `// 2` agrees with `Int.tdiv`. -/
theorem tdiv_two_sub_two_nonneg (a : Int) (ha : 4 ≤ a) : ¬ Int.tdiv a 2 - 2 < 0 := by
  rw [Int.tdiv_eq_ediv (by omega) (by omega)]
  omega

/-- When the (rescaled) target rectangle lies inside the (downscaled)
illustration and is at least 4 pixels in each direction, the Compositor
reaches a blend and returns a composite — whatever the colour transfer
and the seamless clone do, since the clone's failure is caught and the
fallback's shape check succeeds. -/
theorem insert_reaches_blend (cv : CV) (hcv : cv.DimsOk) (illus styl : Img) (coords : Box4)
    (h1 : 0 ≤ (scaledCoords illus coords).1)
    (h2 : 0 ≤ (scaledCoords illus coords).2.1)
    (h3 : (scaledCoords illus coords).1 + 4 ≤ (scaledCoords illus coords).2.2.1)
    (h4 : (scaledCoords illus coords).2.1 + 4 ≤ (scaledCoords illus coords).2.2.2)
    (h5 : (scaledCoords illus coords).2.2.1 ≤ ((downscaled cv illus).w : Int))
    (h6 : (scaledCoords illus coords).2.2.2 ≤ ((downscaled cv illus).h : Int)) :
    (IllustrationStyler.insert_face_into_illustration cv (some illus) styl coords).isOk
      = true := by
  simp only [IllustrationStyler.insert_face_into_illustration]
  set c := scaledCoords illus coords with hc
  set I := downscaled cv illus with hI
  rw [if_neg (by omega)]
  rw [if_neg (by
    push_neg
    refine ⟨?_, ?_⟩
    · have := tdiv_two_sub_two_nonneg (c.2.2.1 - c.1) (by omega)
      omega
    · have := tdiv_two_sub_two_nonneg (c.2.2.2 - c.2.1) (by omega)
      omega)]
  have hcrop := crop_dims I c.2.1 c.2.2.2 c.1 c.2.2.1 h2 (by omega) h6 h1 (by omega) h5
  cases hsc : cv.seamlessClone
      (cv.cvtColor ((cv.colorTransfer (cv.resize styl (c.2.2.1 - c.1).toNat (c.2.2.2 - c.2.1).toNat)
        (crop I c.2.1 c.2.2.2 c.1 c.2.2.1)).getD
          (cv.resize styl (c.2.2.1 - c.1).toNat (c.2.2.2 - c.2.1).toNat)) COLOR_RGB2BGR)
      I (cv.featherMask (c.2.2.2 - c.2.1).toNat (c.2.2.1 - c.1).toNat)
      (c.1 + Int.tdiv (c.2.2.1 - c.1) 2, c.2.1 + Int.tdiv (c.2.2.2 - c.2.1) 2) with
  | some r => rfl
  | none =>
    have hcm : ((cv.colorTransfer
          (cv.resize styl (c.2.2.1 - c.1).toNat (c.2.2.2 - c.2.1).toNat)
          (crop I c.2.1 c.2.2.2 c.1 c.2.2.1)).getD
            (cv.resize styl (c.2.2.1 - c.1).toNat (c.2.2.2 - c.2.1).toNat)).h
          = (c.2.2.2 - c.2.1).toNat ∧
        ((cv.colorTransfer
          (cv.resize styl (c.2.2.1 - c.1).toNat (c.2.2.2 - c.2.1).toNat)
          (crop I c.2.1 c.2.2.2 c.1 c.2.2.1)).getD
            (cv.resize styl (c.2.2.1 - c.1).toNat (c.2.2.2 - c.2.1).toNat)).w
          = (c.2.2.1 - c.1).toNat := by
      cases htr : cv.colorTransfer
          (cv.resize styl (c.2.2.1 - c.1).toNat (c.2.2.2 - c.2.1).toNat)
          (crop I c.2.1 c.2.2.2 c.1 c.2.2.1) with
      | none => simp [hcv.resize_h, hcv.resize_w]
      | some r =>
        simp only [Option.getD_some]
        rw [hcv.transfer_h _ _ _ htr, hcv.transfer_w _ _ _ htr,
          hcv.resize_h, hcv.resize_w]
        exact ⟨rfl, rfl⟩
    rw [if_pos]
    · rfl
    · refine ⟨?_, ?_, ?_, ?_⟩
      · rw [hcv.cvt_h, hcm.1, hcrop.1]
      · rw [hcv.cvt_w, hcm.2, hcrop.2]
      · rw [hcv.feather_h, hcrop.1]
      · rw [hcv.feather_w, hcrop.2]

/-- The at-most-`K`-colours property of the shared quantization step:
every pixel of the quantized image is one of the `K` centroids. -/
theorem palette_quantize_card_le (cv : CV) (hcv : cv.DimsOk) (img : Img) (K : Nat)
    (hK : 0 < K) : (palette (quantize cv img K)).card ≤ K := by
  classical
  have hsub : palette (quantize cv img K) ⊆
      (Finset.range K).image
        (cv.kmeans (img.h * img.w) (fun i => img.px (i / img.w) (i % img.w)) K).2 := by
    intro col hcol
    simp only [palette, quantize, Finset.mem_image, Finset.mem_product,
      Finset.mem_range] at hcol ⊢
    obtain ⟨p, hp, rfl⟩ := hcol
    exact ⟨_, hcv.kmeans_lt _ _ _ _ hK, rfl⟩
  calc (palette (quantize cv img K)).card
      ≤ _ := Finset.card_le_card hsub
    _ ≤ (Finset.range K).card := Finset.card_image_le
    _ = K := Finset.card_range K

/-! ### Concrete test inputs -/

def img400 : Img := constImg 400 400 (10, 20, 30)

def imgC4 : Img := constImg 100 100 (1, 2, 3)

def tmpl9 : Img := constImg 100 100 (5, 5, 5)

def face9 : Img := constImg 40 40 (9, 9, 9)

def ill5 : Img := constImg 100 100 (6, 6, 6)

def face5 : Img := constImg 40 40 (7, 7, 7)

def bigFace : Img := constImg 1024 1024 (50, 60, 70)

def smallFace : Img := constImg 10 12 (1, 1, 1)

def ill2 : Img := constImg 100 100 (2, 2, 2)

def face2 : Img := constImg 30 30 (4, 4, 4)

def ill10 : Img := constImg 200 150 (8, 8, 8)

def face10 : Img := constImg 25 25 (3, 3, 3)

def quant7 : Img := constImg 10 10 (3, 3, 3)

/-! ### Claims -/

/-- The Region Extractor contract in the spec's own words: "expand the
box by a fixed fraction (0.1) of its width as padding" on every side,
then "clamp to image bounds" of an `h × w` image. -/
def specPadClamp (h w : Nat) (b : Box4) : Box4 :=
  let pad := Int.tdiv (b.2.2.1 - b.1) 10
  (max 0 (b.1 - pad), max 0 (b.2.1 - pad),
   min (w : Int) (b.2.2.1 + pad), min (h : Int) (b.2.2.2 + pad))

/-- C3: for every decodable image and bounding box, the Region
Extractor returns exactly the spec's padded-and-clamped coordinates —
computed on the optionally downscaled image with the proportionally
rescaled box, spec §4.1 step (a) — together with the crop of the image
at those coordinates; in particular a 400×400 image with box
(100,100,200,200) yields (90, 90, 210, 210). -/
theorem extract_pad_clamp_spec :
    (∀ (cv : CV) (img : Img) (bbox : Box4),
      IllustrationStyler.extract_face_region cv (some img) bbox =
        .ok (crop (downscaled cv img)
              (specPadClamp (downscaled cv img).h (downscaled cv img).w
                (scaledCoords img bbox)).2.1
              (specPadClamp (downscaled cv img).h (downscaled cv img).w
                (scaledCoords img bbox)).2.2.2
              (specPadClamp (downscaled cv img).h (downscaled cv img).w
                (scaledCoords img bbox)).1
              (specPadClamp (downscaled cv img).h (downscaled cv img).w
                (scaledCoords img bbox)).2.2.1,
            specPadClamp (downscaled cv img).h (downscaled cv img).w (scaledCoords img bbox)))
  ∧ exCoords (IllustrationStyler.extract_face_region trivialCV (some img400)
        (100, 100, 200, 200)) = some (90, 90, 210, 210) := by
  constructor
  · intro cv img bbox
    rfl
  · rfl

/-- C4 counterexample: for a 100×100 image and box (150,150,160,160)
the padded-and-clamped box (149, 149, 100, 100) has zero area, yet
`extract_face_region` succeeds, returning an empty 0×0 region — it does
not fail as the claim states. -/
theorem extract_zero_area_succeeds :
    (IllustrationStyler.extract_face_region trivialCV (some imgC4)
        (150, 150, 160, 160)).isOk = true ∧
    exCoords (IllustrationStyler.extract_face_region trivialCV (some imgC4)
        (150, 150, 160, 160)) = some (149, 149, 100, 100) ∧
    exRegionDims (IllustrationStyler.extract_face_region trivialCV (some imgC4)
        (150, 150, 160, 160)) = some (0, 0) := by
  refine ⟨rfl, rfl, rfl⟩

/-- C4 (amended): the Region Extractor fails exactly when the input
image cannot be decoded; a padded-and-clamped box of zero area is
returned successfully as an empty region (numpy slicing never raises). -/
theorem extract_fails_iff_decode_fails :
    (∀ (cv : CV) (bbox : Box4),
      (IllustrationStyler.extract_face_region cv none bbox).isOk = false)
  ∧ (∀ (cv : CV) (img : Img) (bbox : Box4),
      (IllustrationStyler.extract_face_region cv (some img) bbox).isOk = true) :=
  ⟨fun _ _ => rfl, fun _ _ _ => rfl⟩

/-- C9: whenever the clamped target rectangle has zero or negative
width or height, `blend_with_illustration_template` returns the
template image unchanged instead of raising. -/
theorem blend_degenerate_returns_template (cv : CV) (template stylized : Img) (coords : Box4)
    (h : (InstantIDStyler.clampedTarget template coords).1 ≤ 0 ∨
      (InstantIDStyler.clampedTarget template coords).2 ≤ 0) :
    InstantIDStyler.blend_with_illustration_template cv template stylized coords = template := by
  simp only [InstantIDStyler.blend_with_illustration_template]
  rw [if_pos h]

theorem blend_degenerate_returns_template_witness :
    InstantIDStyler.blend_with_illustration_template trivialCV tmpl9 face9 (50, 50, 50, 80)
      = tmpl9 :=
  blend_degenerate_returns_template trivialCV tmpl9 face9 (50, 50, 50, 80) (by decide)

/-- C6: when the face detector finds no face, the pipeline stops with
the "No face detected in the provided image" error, and the
`/personalize` handler reports a 500 with that cause and leaves no
output file (and no input files either, after its cleanup). -/
theorem no_face_reports_failure_no_output :
    ∀ (cv : CV) (childImg? illusImg? : Option Img),
      IllustrationStyler.process cv [] childImg? illusImg? =
          .error "No face detected in the provided image" ∧
      MainAPI.personalize_illustration true true false true false true
          (.completed (IllustrationStyler.process cv [] childImg? illusImg?)) =
        (.httpError 500 "Personalization failed: No face detected in the provided image",
         ⟨false, false, false⟩) := by
  intro cv childImg? illusImg?
  exact ⟨rfl, rfl⟩

/-- C8: whatever the readiness flags, size checks, compression results,
and pipeline outcome (success, failure or timeout), the temporary input
files of a `/personalize` request and the temporary upload of a
`/detect-face` request are gone when the request finishes. -/
theorem temp_files_deleted_all_paths :
    ∀ (mr sr cL cOk iL iOk : Bool) (oc : MainAPI.PipelineOutcome)
      (mr2 dr tL cOk2 : Bool) (det : Except String Bool),
      (MainAPI.personalize_illustration mr sr cL cOk iL iOk oc).2.childFile = false ∧
      (MainAPI.personalize_illustration mr sr cL cOk iL iOk oc).2.illusFile = false ∧
      (MainAPI.detect_face mr2 dr tL cOk2 det).2 = false := by
  intro mr sr cL cOk iL iOk oc mr2 dr tL cOk2 det
  cases mr <;> cases sr <;> cases mr2 <;> cases dr <;> exact ⟨rfl, rfl, rfl⟩

/-- C5: whenever the Compositor produces an output at all, that output
has exactly the dimensions of the base illustration after its optional
downscaling step (`downscaled`, which resizes only when the largest
dimension exceeds 1024 and rescales the target coordinates
proportionally); and the InstantID blend's output always has the
template's dimensions. -/
theorem compositor_output_dims :
    (∀ (cv : CV), cv.DimsOk → ∀ (illus styl : Img) (coords : Box4),
      (IllustrationStyler.insert_face_into_illustration cv (some illus) styl coords).isOk
          = true →
      okDims (IllustrationStyler.insert_face_into_illustration cv (some illus) styl coords) =
        some ((downscaled cv illus).h, (downscaled cv illus).w))
  ∧ (∀ (cv : CV) (template styl : Img) (coords : Box4),
      (InstantIDStyler.blend_with_illustration_template cv template styl coords).h
          = template.h ∧
      (InstantIDStyler.blend_with_illustration_template cv template styl coords).w
          = template.w) := by
  constructor
  · intro cv hcv illus styl coords
    simp only [IllustrationStyler.insert_face_into_illustration]
    split
    · intro h
      simp [Except.isOk, Except.toBool] at h
    · split
      · intro h
        simp [Except.isOk, Except.toBool] at h
      · split
        next r heq =>
          intro _
          simp only [okDims]
          rw [hcv.clone_h _ _ _ _ _ heq, hcv.clone_w _ _ _ _ _ heq]
        next heq =>
          split
          · intro _
            rfl
          · intro h
            simp [Except.isOk, Except.toBool] at h
  · intro cv template styl coords
    simp only [InstantIDStyler.blend_with_illustration_template]
    split
    · exact ⟨rfl, rfl⟩
    · exact ⟨rfl, rfl⟩

theorem compositor_output_dims_witness :
    okDims (IllustrationStyler.insert_face_into_illustration trivialCV (some ill5) face5
        (10, 10, 30, 30)) = some (100, 100) :=
  compositor_output_dims.1 trivialCV trivialCV_dimsOk ill5 face5 (10, 10, 30, 30) (by decide)

/-- C1 counterexample: a 1024×1024 input face — a valid input well
above 8×8 — is downscaled by `stylize_face` to 512×512, so the output
dimensions are not identical to the input's. -/
theorem stylize_face_shrinks_1024 :
    8 ≤ min bigFace.h bigFace.w ∧
    (IllustrationStyler.stylize_face trivialCV bigFace).h = 512 ∧
    (IllustrationStyler.stylize_face trivialCV bigFace).h ≠ bigFace.h :=
  ⟨by decide, rfl, by decide⟩

/-- C1 (amended): `stylize_face` preserves the input dimensions exactly
when the largest input dimension is at most 512; larger inputs are
first downscaled by `512 / max(h, w)` and keep those reduced
dimensions.  `apply_illustration_style` (the InstantID stylizer)
preserves its input dimensions unconditionally. -/
theorem stylizer_dims_amended :
    ∀ (cv : CV), cv.DimsOk → ∀ (img : Img),
      (max img.h img.w ≤ 512 →
        (IllustrationStyler.stylize_face cv img).h = img.h ∧
        (IllustrationStyler.stylize_face cv img).w = img.w) ∧
      (512 < max img.h img.w →
        (IllustrationStyler.stylize_face cv img).h = img.h * 512 / max img.h img.w ∧
        (IllustrationStyler.stylize_face cv img).w = img.w * 512 / max img.h img.w) ∧
      ((InstantIDStyler.apply_illustration_style cv img).h = img.h ∧
        (InstantIDStyler.apply_illustration_style cv img).w = img.w) := by
  intro cv hcv img
  refine ⟨fun hle => ?_, fun hgt => ?_, ?_⟩
  · have hm : ¬ 512 < max img.h img.w := by omega
    simp only [IllustrationStyler.stylize_face, quantize, if_neg hm]
    exact ⟨by simp [hcv.addW_h, hcv.bil_h, hcv.cvt_h],
      by simp [hcv.addW_w, hcv.bil_w, hcv.cvt_w]⟩
  · simp only [IllustrationStyler.stylize_face, quantize, if_pos hgt]
    exact ⟨by simp [hcv.addW_h, hcv.bil_h, hcv.cvt_h, hcv.resize_h],
      by simp [hcv.addW_w, hcv.bil_w, hcv.cvt_w, hcv.resize_w]⟩
  · constructor
    · simp [InstantIDStyler.apply_illustration_style, quantize, hcv.addW_h, hcv.bil_h,
        hcv.cvt_h]
    · simp [InstantIDStyler.apply_illustration_style, quantize, hcv.addW_w, hcv.bil_w,
        hcv.cvt_w]

theorem stylizer_dims_amended_witness :
    (IllustrationStyler.stylize_face trivialCV smallFace).h = smallFace.h ∧
    (IllustrationStyler.stylize_face trivialCV smallFace).w = smallFace.w :=
  (stylizer_dims_amended trivialCV trivialCV_dimsOk smallFace).1 (by decide)

/-- C7: the k-means quantization both stylers share uses the cluster
count `kClusters = 8`, which lies in the 5–8 range, and its output —
every pixel replaced by one of the `kClusters` centroids — has at most
`kClusters` distinct colours; for `stylize_face` the quantization is
the final step, so the whole Stylizer output has at most `kClusters`
distinct colours. -/
theorem kmeans_palette_bound :
    5 ≤ kClusters ∧ kClusters ≤ 8 ∧
    ∀ (cv : CV), cv.DimsOk → ∀ (img : Img),
      (palette (quantize cv img kClusters)).card ≤ kClusters ∧
      (palette (IllustrationStyler.stylize_face cv img)).card ≤ kClusters := by
  refine ⟨by decide, by decide, fun cv hcv img => ⟨?_, ?_⟩⟩
  · exact palette_quantize_card_le cv hcv img kClusters (by decide)
  · simp only [IllustrationStyler.stylize_face]
    exact palette_quantize_card_le cv hcv _ kClusters (by decide)

theorem kmeans_palette_bound_witness :
    (palette (quantize trivialCV quant7 kClusters)).card ≤ kClusters :=
  (kmeans_palette_bound.2.2 trivialCV trivialCV_dimsOk quant7).1

/-- C2 counterexample: for the blend scenario with a zero-area target
rectangle (x1 = x2) the Compositor raises — `cv2.resize` rejects the
empty dsize before any blending is attempted — instead of falling back
to the alpha blend and returning a composite. -/
theorem insert_zero_area_errors :
    (IllustrationStyler.insert_face_into_illustration trivialCV (some ill2) face2
        (10, 10, 10, 30)).isOk = false := by
  decide

/-- C2 (amended): if gradient-domain seamless cloning fails on a target
rectangle of positive size (at least 4 pixels each way, as the
elliptical mask construction requires) lying inside the (downscaled)
illustration, the Compositor falls back to the feathered alpha blend
and returns a composite instead of raising; a zero-area target instead
raises before the blend is reached. -/
theorem insert_clone_failure_fallback (cv : CV) (hcv : cv.DimsOk)
    (hclone : ∀ s d m c, cv.seamlessClone s d m c = none)
    (illus styl : Img) (coords : Box4)
    (h1 : 0 ≤ (scaledCoords illus coords).1)
    (h2 : 0 ≤ (scaledCoords illus coords).2.1)
    (h3 : (scaledCoords illus coords).1 + 4 ≤ (scaledCoords illus coords).2.2.1)
    (h4 : (scaledCoords illus coords).2.1 + 4 ≤ (scaledCoords illus coords).2.2.2)
    (h5 : (scaledCoords illus coords).2.2.1 ≤ ((downscaled cv illus).w : Int))
    (h6 : (scaledCoords illus coords).2.2.2 ≤ ((downscaled cv illus).h : Int)) :
    (IllustrationStyler.insert_face_into_illustration cv (some illus) styl coords).isOk
      = true :=
  insert_reaches_blend cv hcv illus styl coords h1 h2 h3 h4 h5 h6

theorem insert_clone_failure_fallback_witness :
    (IllustrationStyler.insert_face_into_illustration trivialCV (some ill2) face2
        (10, 10, 40, 40)).isOk = true :=
  insert_clone_failure_fallback trivialCV trivialCV_dimsOk (fun _ _ _ _ => rfl) ill2 face2
    (10, 10, 40, 40) (by decide) (by decide) (by decide) (by decide) (by decide) (by decide)

/-- C10: running the Compositor with a colour transfer that always
fails gives exactly the run in which the transfer returns its source
unchanged — the failure is caught internally and the untransferred
resized face is used — and with such a failing transfer the Compositor
still produces a composite for any in-bounds positive target. -/
theorem color_transfer_fallback :
    (∀ (cv : CV) (illus? : Option Img) (styl : Img) (coords : Box4),
      IllustrationStyler.insert_face_into_illustration
          { cv with colorTransfer := fun _ _ => none } illus? styl coords =
        IllustrationStyler.insert_face_into_illustration
          { cv with colorTransfer := fun s _ => some s } illus? styl coords)
  ∧ (∀ (cv : CV), cv.DimsOk → (∀ s d, cv.colorTransfer s d = none) →
      ∀ (illus styl : Img) (coords : Box4),
        0 ≤ (scaledCoords illus coords).1 →
        0 ≤ (scaledCoords illus coords).2.1 →
        (scaledCoords illus coords).1 + 4 ≤ (scaledCoords illus coords).2.2.1 →
        (scaledCoords illus coords).2.1 + 4 ≤ (scaledCoords illus coords).2.2.2 →
        (scaledCoords illus coords).2.2.1 ≤ ((downscaled cv illus).w : Int) →
        (scaledCoords illus coords).2.2.2 ≤ ((downscaled cv illus).h : Int) →
        (IllustrationStyler.insert_face_into_illustration cv (some illus) styl coords).isOk
          = true) := by
  constructor
  · intro cv illus? styl coords
    cases illus? <;> rfl
  · intro cv hcv hct illus styl coords h1 h2 h3 h4 h5 h6
    exact insert_reaches_blend cv hcv illus styl coords h1 h2 h3 h4 h5 h6

theorem color_transfer_fallback_witness :
    (IllustrationStyler.insert_face_into_illustration trivialCV (some ill10) face10
        (20, 20, 60, 60)).isOk = true :=
  color_transfer_fallback.2 trivialCV trivialCV_dimsOk (fun _ _ => rfl) ill10 face10
    (20, 20, 60, 60) (by decide) (by decide) (by decide) (by decide) (by decide) (by decide)

end IllustrationApp
